import Mathlib

/-!
Verification of the snowbot forecast core: the CovJSON decoder
(`parseSnowForecasts`, src/edr.ts) and the window aggregator
(`getSnowWindows` / `formatWindow` / `formatDate` / `formatHour`,
src/worker/index.ts).

Modelling conventions:
* JS numbers that only ever hold exact integers (epoch milliseconds from
  `Date.getTime()`, grid codes) are modelled as `Int`.
* Out-of-range JS array indexing yields `undefined`, which compares unequal
  to `1`; this is modelled with `List.getElem?` (`l[i]?`).
* `Intl.DateTimeFormat` is modelled against an abstract IANA zone database
  (`ZoneDB`): a recognized zone is a UTC-offset function (offsets may depend
  on the instant, covering DST), an unrecognized zone name makes the
  constructor throw a `RangeError` (ECMA-402), modelled as `Except.error`.
  The database always recognizes `"UTC"` as the zero offset.
* The guard `(curr.getTime() - windowEnd.getTime()) / 3600000 <= 1` is
  computed in binary64, but both operands are exact integers in the `Date`
  range, where the comparison is equivalent to the exact integer test
  `curr - windowEnd ≤ 3600000` (the quotient of integers `g / 3600000` with
  `|g| < 2^53` rounds to a double `≤ 1` iff `g ≤ 3600000`).
-/

/-- A query location (src/locations.ts `Location`).  Coordinates take no part
in any computation verified here (they are only carried through the decoder),
so the JS numbers are modelled as integers to keep equality decidable. -/
structure Location where
  id : String
  name : String
  lat : Int
  lon : Int
  timezone : Option String := none
deriving DecidableEq

/-- The time-axis payload `domain.axes.t.values : string[] | string[][]`
(src/edr.ts `CovJsonResponse`). -/
inductive TValues where
  | flat (ts : List String)
  | nested (tss : List (List String))
deriving DecidableEq

/-- `domain.axes.t` of the CovJSON response.  The `x` and `y` axes are never
read by `parseSnowForecasts` and are omitted. -/
structure TAxis where
  values : TValues
deriving DecidableEq

/-- `domain.axes` of the CovJSON response. -/
structure Axes where
  t : TAxis
deriving DecidableEq

/-- `domain` of the CovJSON response. -/
structure Domain where
  axes : Axes
deriving DecidableEq

/-- `ranges.categorical_snow_surface` of the CovJSON response; only its
`values` array is ever read (`axisNames` and `shape` are omitted). -/
structure SnowRange where
  values : List Int
deriving DecidableEq

/-- `ranges` of the CovJSON response. -/
structure Ranges where
  categorical_snow_surface : SnowRange
deriving DecidableEq

/-- The CovJSON response shape read by `parseSnowForecasts` (src/edr.ts). -/
structure CovJsonResponse where
  domain : Domain
  ranges : Ranges
deriving DecidableEq

/-- Decoder output per location (src/edr.ts `SnowForecast`). -/
structure SnowForecast where
  location : Location
  snowTimestamps : List String
deriving DecidableEq

/-- Timestamp extraction of `parseSnowForecasts`: `Array.isArray(tValues[0])`
is true exactly on a non-empty nested array, which is flattened preserving
order; an empty nested array and a flat array are used as-is (an empty nested
array also flattens to the empty list, so the two readings agree). -/
def extractTimestamps : TValues → List String
  | .flat ts => ts
  | .nested tss => tss.flatten

/-- `parseSnowForecasts` (src/edr.ts): for each location index `p` and time
index `t`, the flattened row-major cell is `values[t * nPoints + p]`; the
timestamp at `t` is collected when that cell holds the code `1`.  An
out-of-range read is `undefined === 1`, i.e. false. -/
def parseSnowForecasts (covjson : CovJsonResponse) (locations : List Location) :
    List SnowForecast :=
  let values := covjson.ranges.categorical_snow_surface.values
  let timestamps := extractTimestamps covjson.domain.axes.t.values
  let nTimesteps := timestamps.length
  let nPoints := locations.length
  locations.enum.map fun pl =>
    { location := pl.2
      snowTimestamps := (List.range nTimesteps).filterMap fun t =>
        if values[t * nPoints + pl.1]? = some 1 then timestamps[t]? else none }

/-- A raw response in which the structurally required fields may be absent
(`undefined` in JS): `domain.axes.t.values` and
`ranges.categorical_snow_surface.values`. -/
structure RawCovJson where
  tValues? : Option TValues
  values? : Option (List Int)
deriving DecidableEq

/-- `parseSnowForecasts` applied to a raw response: reading `values` of an
absent range (first, as in the source) or indexing an absent time axis throws
a `TypeError`, modelled as `Except.error`; the error aborts the whole call, so
no partial per-location results exist.  With both fields present the call is
the total `parseSnowForecasts`. -/
def parseSnowForecastsRaw (covjson : RawCovJson) (locations : List Location) :
    Except String (List SnowForecast) := do
  let values ← match covjson.values? with
    | some v => pure v
    | none => throw "TypeError: cannot read properties of undefined"
  let tValues ← match covjson.tValues? with
    | some tv => pure tv
    | none => throw "TypeError: cannot read properties of undefined"
  pure (parseSnowForecasts ⟨⟨⟨⟨tValues⟩⟩⟩, ⟨⟨values⟩⟩⟩ locations)

/-- A Gregorian calendar date. -/
structure CivilDate where
  year : Int
  month : Int
  day : Int
deriving DecidableEq

/-- Gregorian date of a day count relative to 1970-01-01 (the civil-from-days
algorithm used by proleptic-Gregorian calendar conversions, as performed by
`Intl.DateTimeFormat`). -/
def civilFromDays (z : Int) : CivilDate :=
  let z := z + 719468
  let era := z / 146097
  let doe := z - era * 146097
  let yoe := (doe - doe / 1460 + doe / 36524 - doe / 146096) / 365
  let y := yoe + era * 400
  let doy := doe - (365 * yoe + yoe / 4 - yoe / 100)
  let mp := (5 * doy + 2) / 153
  let d := doy - (153 * mp + 2) / 5 + 1
  let m := mp + (if mp < 10 then 3 else -9)
  ⟨y + (if m ≤ 2 then 1 else 0), m, d⟩

/-- Day count relative to 1970-01-01 of a Gregorian date (inverse of
`civilFromDays` on valid dates). -/
def daysFromCivil (y m d : Int) : Int :=
  let y := y - (if m ≤ 2 then 1 else 0)
  let era := y / 400
  let yoe := y - era * 400
  let doy := (153 * (m + (if 2 < m then -3 else 9)) + 2) / 5 + d - 1
  let doe := yoe * 365 + yoe / 4 - yoe / 100 + doy
  era * 146097 + doe - 719468

/-- en-US short weekday name of an epoch day count (1970-01-01 was a
Thursday). -/
def weekdayName (z : Int) : String :=
  match ((z + 4) % 7).toNat with
  | 0 => "Sun"
  | 1 => "Mon"
  | 2 => "Tue"
  | 3 => "Wed"
  | 4 => "Thu"
  | 5 => "Fri"
  | _ => "Sat"

/-- Wall-clock hour (0–23) of an epoch-millisecond instant. -/
def hourOfMs (ms : Int) : Int :=
  (ms % 86400000) / 3600000

/-- Value of one ASCII digit, `none` otherwise. -/
def digitVal (c : Char) : Option Int :=
  if c.isDigit then some ((c.toNat : Int) - 48) else none

/-- `new Date(s).getTime()` for the strict `YYYY-MM-DDTHH:MM:SSZ` instants the
EDR time axis carries: epoch milliseconds, or `none` when the string does not
have that shape (JS would yield an invalid date).  Day-of-month overflow
within a month is not rejected; the model is only applied to valid
instants. -/
def parseISOUTC (s : String) : Option Int := do
  let cs := s.toList
  let at_ := fun (i : Nat) => cs.getD i ' '
  let two : Nat → Option Int := fun i => do
    let a ← digitVal (at_ i)
    let b ← digitVal (at_ (i + 1))
    pure (a * 10 + b)
  if cs.length = 20 ∧ at_ 4 = '-' ∧ at_ 7 = '-' ∧ at_ 10 = 'T' ∧
      at_ 13 = ':' ∧ at_ 16 = ':' ∧ at_ 19 = 'Z' then
    let y ← do
      let a ← two 0
      let b ← two 2
      pure (a * 100 + b)
    let mo ← two 5
    let dy ← two 8
    let hh ← two 11
    let mi ← two 14
    let ss ← two 17
    if 1 ≤ mo ∧ mo ≤ 12 ∧ 1 ≤ dy ∧ dy ≤ 31 ∧ hh ≤ 23 ∧ mi ≤ 59 ∧ ss ≤ 59 then
      pure ((daysFromCivil y mo dy * 24 + hh) * 3600000 + mi * 60000 + ss * 1000)
    else none
  else none

/-- The IANA zone database behind `Intl.DateTimeFormat`: a recognized zone
name maps to its UTC-offset function (milliseconds to add to an instant to
obtain local wall-clock time; the offset may depend on the instant, covering
DST), an unrecognized name maps to `none`.  `"UTC"` is always recognized and
has offset zero. -/
structure ZoneDB where
  lookup : String → Option (Int → Int)
  utc_zero : lookup "UTC" = some fun _ => 0

/-- `timezone || "UTC"`: JS `||` takes the fallback both for `undefined` and
for the empty string (both falsy). -/
def orUTC : Option String → String
  | none => "UTC"
  | some s => if s = "" then "UTC" else s

/-- The rendering `formatHour` performs once the zone is resolved to an
offset rule: the local wall-clock hour `h` (0–23, `hour12: false`), mapped to
`"12am"` / `"12pm"` / `"<h>am"` / `"<h-12>pm"`. -/
def formatHourPure (rule : Int → Int) (date : Int) : String :=
  let h := hourOfMs (date + rule date)
  if h = 0 then "12am"
  else if h = 12 then "12pm"
  else if h < 12 then toString h ++ "am"
  else toString (h - 12) ++ "pm"

/-- The rendering `formatDate` performs once the zone is resolved: the local
calendar date as `"<Wkd> <M>/<D>"` (en-US short weekday, numeric month and
day without padding; the year is not rendered). -/
def formatDatePure (rule : Int → Int) (date : Int) : String :=
  let z := (date + rule date) / 86400000
  let c := civilFromDays z
  weekdayName z ++ " " ++ toString c.month ++ "/" ++ toString c.day

/-- `formatHour` (src/worker/index.ts): the zone argument or the `"UTC"`
fallback is resolved through `Intl.DateTimeFormat`, which throws a
`RangeError` on an unrecognized name. -/
def formatHour (db : ZoneDB) (date : Int) (timezone : Option String) :
    Except String String :=
  match db.lookup (orUTC timezone) with
  | none => .error "RangeError: invalid time zone specified"
  | some rule => .ok (formatHourPure rule date)

/-- `formatDate` (src/worker/index.ts), same zone resolution as
`formatHour`. -/
def formatDate (db : ZoneDB) (date : Int) (timezone : Option String) :
    Except String String :=
  match db.lookup (orUTC timezone) with
  | none => .error "RangeError: invalid time zone specified"
  | some rule => .ok (formatDatePure rule date)

/-- `formatWindow` (src/worker/index.ts).  Note the same-day test compares
the *rendered date strings* (`startDate === endDate`), and the single-instant
test compares the raw instants (`start.getTime() === end.getTime()`). -/
def formatWindow (db : ZoneDB) (start finish : Int) (timezone : Option String) :
    Except String String := do
  let startDate ← formatDate db start timezone
  let endDate ← formatDate db finish timezone
  let startHour ← formatHour db start timezone
  let endHour ← formatHour db finish timezone
  if startDate = endDate then
    if start = finish then
      pure (startDate ++ " " ++ startHour)
    else
      pure (startDate ++ " " ++ startHour ++ "-" ++ endHour)
  else
    pure (startDate ++ " " ++ startHour ++ " - " ++ endDate ++ " " ++ endHour)

/-- The same rendering as `formatWindow` once the zone is resolved. -/
def formatWindowPure (rule : Int → Int) (start finish : Int) : String :=
  let startDate := formatDatePure rule start
  let endDate := formatDatePure rule finish
  let startHour := formatHourPure rule start
  let endHour := formatHourPure rule finish
  if startDate = endDate then
    if start = finish then startDate ++ " " ++ startHour
    else startDate ++ " " ++ startHour ++ "-" ++ endHour
  else startDate ++ " " ++ startHour ++ " - " ++ endDate ++ " " ++ endHour

/-- The loop of `getSnowWindows` (src/worker/index.ts) with the current
window bounds as explicit state: `windowEnd` is compared against the next
timestamp (`hoursDiff ≤ 1`, i.e. `curr - windowEnd ≤ 3600000` ms, a signed
comparison); on a gap the finished window is rendered before the loop
continues, so a `RangeError` from rendering aborts the remaining loop as in
the source. -/
def getSnowWindowsAux (db : ZoneDB) (timezone : Option String)
    (windowStart windowEnd : Int) : List Int → Except String (List String)
  | [] => do
    let w ← formatWindow db windowStart windowEnd timezone
    pure [w]
  | curr :: rest =>
    if curr - windowEnd ≤ 3600000 then
      getSnowWindowsAux db timezone windowStart curr rest
    else do
      let w ← formatWindow db windowStart windowEnd timezone
      let ws ← getSnowWindowsAux db timezone curr curr rest
      pure (w :: ws)

/-- `getSnowWindows` (src/worker/index.ts): the timestamps are the
epoch-millisecond values of the parsed `Date`s (see `parseISOUTC`); the empty
input returns `[]` before any `Intl` formatter is constructed. -/
def getSnowWindows (db : ZoneDB) (timestamps : List Int)
    (timezone : Option String) : Except String (List String) :=
  match timestamps with
  | [] => .ok []
  | t0 :: rest => getSnowWindowsAux db timezone t0 t0 rest

/-- The members of each window the `getSnowWindows` loop builds (the loop
keeps only the bounds; this ghost version keeps the full member list, with
`windowEnd` always the last member of the open window). -/
def windowGroupsAux (currWindow : List Int) (windowEnd : Int) :
    List Int → List (List Int)
  | [] => [currWindow]
  | curr :: rest =>
    if curr - windowEnd ≤ 3600000 then
      windowGroupsAux (currWindow ++ [curr]) curr rest
    else
      currWindow :: windowGroupsAux [curr] curr rest

/-- The partition of a timestamp list into the windows the `getSnowWindows`
loop builds. -/
def windowGroups : List Int → List (List Int)
  | [] => []
  | t0 :: rest => windowGroupsAux [t0] t0 rest

/-- Rendering of a list of window member lists: each window is rendered from
its first and last member, left to right, stopping at the first error. -/
def renderWindows (db : ZoneDB) (timezone : Option String) :
    List (List Int) → Except String (List String)
  | [] => .ok []
  | g :: gs => do
    let w ← formatWindow db (g.headD 0) (g.getLastD 0) timezone
    let ws ← renderWindows db timezone gs
    pure (w :: ws)

/-- Index of the group holding position `i` of the flattened group list. -/
def groupIdx : List (List Int) → Nat → Nat
  | [], _ => 0
  | g :: gs, i => if i < g.length then 0 else groupIdx gs (i - g.length) + 1

/-- A concrete zone database recognizing only `"UTC"`; used to instantiate
the theorems below on concrete inputs. -/
def utcOnlyDB : ZoneDB where
  lookup := fun s => if s = "UTC" then some fun _ => 0 else none
  utc_zero := rfl

/-! ## Decoder lemmas -/

lemma filterMap_if_eq_filter_map (l : List Nat) (P : Nat → Prop) [DecidablePred P]
    (f : Nat → Option String) (g : Nat → String) (h : ∀ t ∈ l, f t = some (g t)) :
    (l.filterMap fun t => if P t then f t else none) =
      (l.filter fun t => decide (P t)).map g := by
  induction l with
  | nil => rfl
  | cons a l ih =>
    have ha : f a = some (g a) := h a (List.mem_cons_self a l)
    have ih' := ih fun t ht => h t (List.mem_cons_of_mem a ht)
    by_cases hp : P a
    · simp [List.filterMap_cons, List.filter_cons, hp, ha, ih']
    · simp [List.filterMap_cons, List.filter_cons, hp, ih']

/-- Claim C1: `parseSnowForecasts` returns one `SnowForecast` per input
location, in input order, and the timeline of the location at index `p` is
the subsequence of time-axis timestamps (ascending time index `t`) at which
the value array holds `1` at flattened index `t * N + p`; this covers the
case where every timeline is empty, since nothing below assumes any cell
holds `1`. -/
theorem claim1_decode_indexing (covjson : CovJsonResponse) (locations : List Location) :
    (parseSnowForecasts covjson locations).length = locations.length ∧
    ∀ (p : Nat) (loc : Location), locations[p]? = some loc →
      (parseSnowForecasts covjson locations)[p]? = some
        { location := loc
          snowTimestamps :=
            ((List.range (extractTimestamps covjson.domain.axes.t.values).length).filter
                fun t =>
                  decide (covjson.ranges.categorical_snow_surface.values[t * locations.length + p]? =
                    some 1)).map
              fun t => (extractTimestamps covjson.domain.axes.t.values).getD t "" } := by
  constructor
  · simp [parseSnowForecasts, List.enum_length]
  · intro p loc hp
    simp only [parseSnowForecasts, List.getElem?_map, List.getElem?_enum, hp,
      Option.map_some', Option.some.injEq]
    congr 1
    apply filterMap_if_eq_filter_map
    intro t ht
    have ht' : t < (extractTimestamps covjson.domain.axes.t.values).length :=
      List.mem_range.mp ht
    rw [List.getElem?_eq_getElem ht', List.getD_eq_getElem?_getD,
      List.getElem?_eq_getElem ht']
    rfl

/-- Witness for C1 at the spec's row-major example: `T = 2`, `N = 3`,
values `[1,0,0, 0,1,0]`. -/
theorem claim1_decode_indexing_witness :
    (parseSnowForecasts ⟨⟨⟨⟨.flat ["t0", "t1"]⟩⟩⟩, ⟨⟨[1, 0, 0, 0, 1, 0]⟩⟩⟩
        [⟨"a", "A", 0, 0, none⟩, ⟨"b", "B", 0, 0, none⟩, ⟨"c", "C", 0, 0, none⟩]).length = 3 ∧
    (parseSnowForecasts ⟨⟨⟨⟨.flat ["t0", "t1"]⟩⟩⟩, ⟨⟨[1, 0, 0, 0, 1, 0]⟩⟩⟩
        [⟨"a", "A", 0, 0, none⟩, ⟨"b", "B", 0, 0, none⟩, ⟨"c", "C", 0, 0, none⟩])[1]? =
      some ⟨⟨"b", "B", 0, 0, none⟩, ["t1"]⟩ := by
  have h := claim1_decode_indexing ⟨⟨⟨⟨.flat ["t0", "t1"]⟩⟩⟩, ⟨⟨[1, 0, 0, 0, 1, 0]⟩⟩⟩
    [⟨"a", "A", 0, 0, none⟩, ⟨"b", "B", 0, 0, none⟩, ⟨"c", "C", 0, 0, none⟩]
  refine ⟨h.1.trans (by decide), ?_⟩
  rw [h.2 1 ⟨"b", "B", 0, 0, none⟩ (by decide)]
  decide

/-- Claim C6: decoding a nested time axis equals decoding the flat
order-preserving flattening, everything else unchanged. -/
theorem claim6_nested_axis_flatten (tss : List (List String)) (rng : Ranges)
    (locations : List Location) :
    parseSnowForecasts ⟨⟨⟨⟨.nested tss⟩⟩⟩, rng⟩ locations =
      parseSnowForecasts ⟨⟨⟨⟨.flat tss.flatten⟩⟩⟩, rng⟩ locations := rfl

/-- Claim C4 (amended): a response missing a structurally required field
(time-axis values or value array) makes the decode throw, propagated with no
partial per-location results (all-or-nothing); with both fields present the
decode always succeeds — in particular a value-array length mismatch is NOT
detected (out-of-range reads compare unequal to `1`). -/
theorem claim4_raw_decode_errors (raw : RawCovJson) (locations : List Location) :
    ((raw.values? = none ∨ raw.tValues? = none) →
      ∃ e, parseSnowForecastsRaw raw locations = Except.error e) ∧
    (∀ (tv : TValues) (v : List Int), raw.tValues? = some tv → raw.values? = some v →
      parseSnowForecastsRaw raw locations =
        Except.ok (parseSnowForecasts ⟨⟨⟨⟨tv⟩⟩⟩, ⟨⟨v⟩⟩⟩ locations)) := by
  obtain ⟨tv?, v?⟩ := raw
  constructor
  · rintro (h | h) <;> simp only at h <;> subst h
    · exact ⟨"TypeError: cannot read properties of undefined", rfl⟩
    · cases v? with
      | none => exact ⟨"TypeError: cannot read properties of undefined", rfl⟩
      | some v => exact ⟨"TypeError: cannot read properties of undefined", rfl⟩
  · intro tv v htv hv
    simp only at htv hv
    subst htv; subst hv
    rfl

/-- Witness for C4 (amended) at a response whose value array is absent. -/
theorem claim4_raw_decode_errors_witness :
    ∃ e, parseSnowForecastsRaw ⟨some (.flat ["t0"]), none⟩ [] = Except.error e :=
  (claim4_raw_decode_errors ⟨some (.flat ["t0"]), none⟩ []).1 (Or.inl rfl)

/-- Counterexample to C4 as stated: a value array of length 1 against
`T = 2` timestamps and `N = 1` locations (so `T * N = 2 ≠ 1`) does not make
decode fail — it succeeds, silently treating the missing cell as
not-snow. -/
theorem claim4_counterexample :
    (extractTimestamps (.flat ["t0", "t1"])).length * 1 ≠ ([1] : List Int).length ∧
    parseSnowForecastsRaw ⟨some (.flat ["t0", "t1"]), some [1]⟩ [⟨"a", "A", 0, 0, none⟩] =
      Except.ok [⟨⟨"a", "A", 0, 0, none⟩, ["t0"]⟩] := by
  constructor
  · decide
  · rfl

/-- Claim C9: the empty timestamp list aggregates to the empty window list
for every zone argument — present, absent, or unrecognized — because the
empty-input return happens before any `Intl` formatter is constructed. -/
theorem claim9_empty_input (db : ZoneDB) (tz : Option String) :
    getSnowWindows db [] tz = Except.ok [] := rfl

/-! ## Aggregator lemmas -/

lemma windowGroupsAux_flatten : ∀ (l w : List Int) (e : Int),
    (windowGroupsAux w e l).flatten = w ++ l := by
  intro l
  induction l with
  | nil => intro w e; simp [windowGroupsAux]
  | cons c rest ih =>
    intro w e
    by_cases hc : c - e ≤ 3600000
    · simp [windowGroupsAux, hc, ih]
    · simp [windowGroupsAux, hc, ih]

lemma windowGroups_flatten (ts : List Int) : (windowGroups ts).flatten = ts := by
  cases ts with
  | nil => rfl
  | cons t rest => simpa [windowGroups] using windowGroupsAux_flatten rest [t] t

lemma windowGroupsAux_ne_nil : ∀ (l w : List Int) (e : Int), windowGroupsAux w e l ≠ [] := by
  intro l
  induction l with
  | nil => intro w e; simp [windowGroupsAux]
  | cons c rest ih =>
    intro w e
    by_cases hc : c - e ≤ 3600000
    · simpa [windowGroupsAux, hc] using ih (w ++ [c]) c
    · simp [windowGroupsAux, hc]

lemma windowGroupsAux_members_ne_nil : ∀ (l w : List Int) (e : Int), w ≠ [] →
    ∀ g ∈ windowGroupsAux w e l, g ≠ [] := by
  intro l
  induction l with
  | nil =>
    intro w e hw g hg
    simp [windowGroupsAux] at hg
    exact hg ▸ hw
  | cons c rest ih =>
    intro w e hw g hg
    by_cases hc : c - e ≤ 3600000
    · rw [windowGroupsAux, if_pos hc] at hg
      exact ih (w ++ [c]) c (by simp) g hg
    · rw [windowGroupsAux, if_neg hc] at hg
      rcases List.mem_cons.mp hg with rfl | hg'
      · exact hw
      · exact ih [c] c (by simp) g hg'

lemma windowGroups_members_ne_nil (ts : List Int) : ∀ g ∈ windowGroups ts, g ≠ [] := by
  cases ts with
  | nil => simp [windowGroups]
  | cons t rest => exact windowGroupsAux_members_ne_nil rest [t] t (by simp)

lemma head?_of_ne_nil (g : List Int) (h : g ≠ []) : g.head? = some (g.headD 0) := by
  cases g with
  | nil => exact absurd rfl h
  | cons a l => rfl

lemma getLast?_of_ne_nil (g : List Int) (h : g ≠ []) : g.getLast? = some (g.getLastD 0) := by
  cases g with
  | nil => exact absurd rfl h
  | cons a l =>
    cases hg : (a :: l).getLast? with
    | none => exact absurd (List.getLast?_eq_none_iff.mp hg) (List.cons_ne_nil a l)
    | some x => rw [List.getLastD_eq_getLast?, hg]; rfl

lemma getSnowWindowsAux_eq_renderWindows (db : ZoneDB) (tz : Option String) :
    ∀ (l w : List Int) (s e : Int), w.head? = some s → w.getLast? = some e →
      getSnowWindowsAux db tz s e l = renderWindows db tz (windowGroupsAux w e l) := by
  intro l
  induction l with
  | nil =>
    intro w s e hs he
    have h1 : w.headD 0 = s := by rw [List.headD_eq_head?, hs]; rfl
    have h2 : w.getLastD 0 = e := by rw [List.getLastD_eq_getLast?, he]; rfl
    simp only [getSnowWindowsAux, windowGroupsAux, renderWindows, h1, h2]
    cases formatWindow db s e tz <;> rfl
  | cons c rest ih =>
    intro w s e hs he
    by_cases hc : c - e ≤ 3600000
    · rw [getSnowWindowsAux, if_pos hc, windowGroupsAux, if_pos hc]
      exact ih (w ++ [c]) s c
        (by rw [List.head?_append, hs]; rfl) (List.getLast?_concat w)
    · rw [getSnowWindowsAux, if_neg hc, windowGroupsAux, if_neg hc]
      have h1 : w.headD 0 = s := by rw [List.headD_eq_head?, hs]; rfl
      have h2 : w.getLastD 0 = e := by rw [List.getLastD_eq_getLast?, he]; rfl
      simp only [renderWindows, h1, h2, ih [c] c c rfl rfl]

lemma getSnowWindows_eq_renderWindows (db : ZoneDB) (ts : List Int) (tz : Option String) :
    getSnowWindows db ts tz = renderWindows db tz (windowGroups ts) := by
  cases ts with
  | nil => rfl
  | cons t rest => exact getSnowWindowsAux_eq_renderWindows db tz rest [t] t t rfl rfl

lemma ok_bind {α β : Type} (a : α) (f : α → Except String β) :
    (Except.ok a : Except String α) >>= f = f a := rfl

lemma pure_eq_ok {α : Type} (a : α) : (pure a : Except String α) = Except.ok a := rfl

lemma formatHour_ok (db : ZoneDB) (ms : Int) (tz : Option String) (rule : Int → Int)
    (h : db.lookup (orUTC tz) = some rule) :
    formatHour db ms tz = Except.ok (formatHourPure rule ms) := by
  simp [formatHour, h]

lemma formatDate_ok (db : ZoneDB) (ms : Int) (tz : Option String) (rule : Int → Int)
    (h : db.lookup (orUTC tz) = some rule) :
    formatDate db ms tz = Except.ok (formatDatePure rule ms) := by
  simp [formatDate, h]

lemma formatWindow_ok (db : ZoneDB) (s e : Int) (tz : Option String) (rule : Int → Int)
    (h : db.lookup (orUTC tz) = some rule) :
    formatWindow db s e tz = Except.ok (formatWindowPure rule s e) := by
  simp only [formatWindow, formatDate_ok db s tz rule h, formatDate_ok db e tz rule h,
    formatHour_ok db s tz rule h, formatHour_ok db e tz rule h, formatWindowPure]
  by_cases hd : formatDatePure rule s = formatDatePure rule e
  · by_cases hse : s = e <;> simp [hd, hse, ok_bind, pure_eq_ok]
  · simp [hd, ok_bind, pure_eq_ok]

lemma renderWindows_ok (db : ZoneDB) (tz : Option String) (rule : Int → Int)
    (h : db.lookup (orUTC tz) = some rule) :
    ∀ gs, renderWindows db tz gs =
      Except.ok (gs.map fun g => formatWindowPure rule (g.headD 0) (g.getLastD 0)) := by
  intro gs
  induction gs with
  | nil => rfl
  | cons g gs ih =>
    simp only [renderWindows, formatWindow_ok db (g.headD 0) (g.getLastD 0) tz rule h,
      ih, List.map_cons]
    rfl

lemma getSnowWindows_ok (db : ZoneDB) (ts : List Int) (tz : Option String) (rule : Int → Int)
    (h : db.lookup (orUTC tz) = some rule) :
    getSnowWindows db ts tz =
      Except.ok ((windowGroups ts).map fun g =>
        formatWindowPure rule (g.headD 0) (g.getLastD 0)) := by
  rw [getSnowWindows_eq_renderWindows, renderWindows_ok db tz rule h]

lemma formatWindow_error (db : ZoneDB) (s e : Int) (tz : Option String)
    (h : db.lookup (orUTC tz) = none) :
    formatWindow db s e tz = Except.error "RangeError: invalid time zone specified" := by
  have hd : formatDate db s tz = Except.error "RangeError: invalid time zone specified" := by
    simp [formatDate, h]
  simp only [formatWindow, hd]
  rfl

lemma getSnowWindowsAux_error (db : ZoneDB) (tz : Option String)
    (h : db.lookup (orUTC tz) = none) :
    ∀ (l : List Int) (s e : Int),
      getSnowWindowsAux db tz s e l = Except.error "RangeError: invalid time zone specified" := by
  intro l
  induction l with
  | nil =>
    intro s e
    rw [getSnowWindowsAux, formatWindow_error db s e tz h]
    rfl
  | cons c rest ih =>
    intro s e
    by_cases hc : c - e ≤ 3600000
    · rw [getSnowWindowsAux, if_pos hc, ih s c]
    · rw [getSnowWindowsAux, if_neg hc, formatWindow_error db s e tz h]
      rfl

lemma formatWindow_tz_congr (db : ZoneDB) (s e : Int) (tz₁ tz₂ : Option String)
    (h : orUTC tz₁ = orUTC tz₂) :
    formatWindow db s e tz₁ = formatWindow db s e tz₂ := by
  simp [formatWindow, formatDate, formatHour, h]

lemma getSnowWindows_tz_congr (db : ZoneDB) (tz₁ tz₂ : Option String)
    (h : orUTC tz₁ = orUTC tz₂) (ts : List Int) :
    getSnowWindows db ts tz₁ = getSnowWindows db ts tz₂ := by
  rw [getSnowWindows_eq_renderWindows, getSnowWindows_eq_renderWindows]
  induction windowGroups ts with
  | nil => rfl
  | cons g gs ih =>
    simp only [renderWindows, formatWindow_tz_congr db (g.headD 0) (g.getLastD 0) tz₁ tz₂ h, ih]

lemma groupIdx_aux_left : ∀ (l w : List Int) (e : Int) (p : Nat), p < w.length →
    groupIdx (windowGroupsAux w e l) p = 0 := by
  intro l
  induction l with
  | nil =>
    intro w e p hp
    simp [windowGroupsAux, groupIdx, hp]
  | cons c rest ih =>
    intro w e p hp
    by_cases hc : c - e ≤ 3600000
    · rw [windowGroupsAux, if_pos hc]
      exact ih (w ++ [c]) c p (by simp; omega)
    · rw [windowGroupsAux, if_neg hc]
      simp [groupIdx, hp]

lemma groupIdx_cons (g : List Int) (gs : List (List Int)) (i : Nat) :
    groupIdx (g :: gs) i = if i < g.length then 0 else groupIdx gs (i - g.length) + 1 := rfl

lemma groupIdx_aux_step : ∀ (l w : List Int) (e : Int), w ≠ [] →
    ∀ (j : Nat) (x y : Int), (e :: l)[j]? = some x → l[j]? = some y →
    groupIdx (windowGroupsAux w e l) (w.length + j) =
      groupIdx (windowGroupsAux w e l) (w.length + j - 1) +
        (if y - x ≤ 3600000 then 0 else 1) := by
  intro l
  induction l with
  | nil =>
    intro w e hw j x y hx hy
    simp at hy
  | cons c rest ih =>
    intro w e hw j x y hx hy
    have hwlen : 1 ≤ w.length := List.length_pos.mpr hw
    by_cases hc : c - e ≤ 3600000
    · rw [windowGroupsAux, if_pos hc]
      cases j with
      | zero =>
        have hx' : x = e := by simpa using hx.symm
        have hy' : y = c := by simpa using hy.symm
        rw [hx', hy', if_pos hc]
        rw [groupIdx_aux_left rest (w ++ [c]) c (w.length + 0)
          (by simp only [List.length_append, List.length_cons, List.length_nil]; omega)]
        rw [groupIdx_aux_left rest (w ++ [c]) c (w.length + 0 - 1)
          (by simp only [List.length_append, List.length_cons, List.length_nil]; omega)]
      | succ k =>
        have hx' : (c :: rest)[k]? = some x := by simpa using hx
        have hy' : rest[k]? = some y := by simpa using hy
        have hrec := ih (w ++ [c]) c (by simp) k x y hx' hy'
        have e2 : (w ++ [c]).length + k - 1 = w.length + (k + 1) - 1 := by
          simp only [List.length_append, List.length_cons, List.length_nil]; omega
        have e1 : (w ++ [c]).length + k = w.length + (k + 1) := by
          simp only [List.length_append, List.length_cons, List.length_nil]; omega
        rw [e2, e1] at hrec
        exact hrec
    · rw [windowGroupsAux, if_neg hc]
      cases j with
      | zero =>
        have hx' : x = e := by simpa using hx.symm
        have hy' : y = c := by simpa using hy.symm
        rw [hx', hy', if_neg hc]
        rw [groupIdx_cons, groupIdx_cons]
        rw [if_neg (by omega : ¬ w.length + 0 < w.length)]
        rw [if_pos (by omega : w.length + 0 - 1 < w.length)]
        have h3 : w.length + 0 - w.length = 0 := by omega
        rw [h3, groupIdx_aux_left rest [c] c 0 (by simp)]
      | succ k =>
        have hx' : (c :: rest)[k]? = some x := by simpa using hx
        have hy' : rest[k]? = some y := by simpa using hy
        have hrec := ih [c] c (by simp) k x y hx' hy'
        have e3 : [c].length + k - 1 = k := by show 1 + k - 1 = k; omega
        have e4 : [c].length + k = 1 + k := rfl
        rw [e3, e4] at hrec
        rw [groupIdx_cons, groupIdx_cons]
        rw [if_neg (by omega : ¬ w.length + (k + 1) < w.length)]
        rw [if_neg (by omega : ¬ w.length + (k + 1) - 1 < w.length)]
        have e1 : w.length + (k + 1) - w.length = 1 + k := by omega
        have e2 : w.length + (k + 1) - 1 - w.length = k := by omega
        rw [e1, e2, hrec]
        by_cases hg : y - x ≤ 3600000
        · simp [hg]
        · simp [hg]

lemma windowGroups_step (ts : List Int) (i : Nat) (x y : Int)
    (hx : ts[i]? = some x) (hy : ts[i + 1]? = some y) :
    groupIdx (windowGroups ts) (i + 1) =
      groupIdx (windowGroups ts) i + (if y - x ≤ 3600000 then 0 else 1) := by
  cases ts with
  | nil => simp at hx
  | cons t rest =>
    have hy' : rest[i]? = some y := by simpa using hy
    have hrec := groupIdx_aux_step rest [t] t (by simp) i x y hx hy'
    have e2 : [t].length + i - 1 = i := by show 1 + i - 1 = i; omega
    have e1 : [t].length + i = i + 1 := by show 1 + i = i + 1; omega
    rw [e2, e1] at hrec
    simpa [windowGroups] using hrec

lemma chain_le_boundary : ∀ (gs : List (List Int)), (∀ g ∈ gs, g ≠ []) →
    List.Chain' (· ≤ ·) gs.flatten →
    List.Chain' (fun g₁ g₂ => g₁.getLastD 0 ≤ g₂.headD 0) gs := by
  intro gs
  induction gs with
  | nil => intro _ _; simp
  | cons g gs ih =>
    intro hne hch
    rw [List.chain'_cons']
    have hflat : List.Chain' (· ≤ ·) (g ++ gs.flatten) := by simpa using hch
    rw [List.chain'_append] at hflat
    obtain ⟨-, hch2, hbd⟩ := hflat
    constructor
    · intro b hb
      cases gs with
      | nil => simp at hb
      | cons g' gs' =>
        have hb' : g' = b := by simpa using hb
        subst hb'
        have hg'ne : g' ≠ [] := hne g' (by simp)
        apply hbd
        · rw [getLast?_of_ne_nil g (hne g (by simp))]
          rfl
        · have : (g' :: gs').flatten.head? = some (g'.headD 0) := by
            cases g' with
            | nil => exact absurd rfl hg'ne
            | cons a l => rfl
          rw [this]
          rfl
    · exact ih (fun g hg => hne g (List.mem_cons_of_mem _ hg)) (by simpa using hch2)

/-- Claim C2: the emitted windows partition the input timestamps exactly:
`getSnowWindows` renders exactly the member groups `windowGroups` builds, the
concatenation of those groups in window order is the input sequence (nothing
dropped, duplicated or reordered), every group is non-empty, and when the
input is non-decreasing the timestamps are non-decreasing across window
boundaries (last member of a window ≤ first member of the next). -/
theorem claim2_window_partition (db : ZoneDB) (ts : List Int) (tz : Option String)
    (_hts : ts ≠ []) :
    getSnowWindows db ts tz = renderWindows db tz (windowGroups ts) ∧
    (windowGroups ts).flatten = ts ∧
    (∀ g ∈ windowGroups ts, g ≠ []) ∧
    (List.Chain' (· ≤ ·) ts →
      List.Chain' (fun g₁ g₂ => g₁.getLastD 0 ≤ g₂.headD 0) (windowGroups ts)) := by
  refine ⟨getSnowWindows_eq_renderWindows db ts tz, windowGroups_flatten ts,
    windowGroups_members_ne_nil ts, ?_⟩
  intro hch
  exact chain_le_boundary (windowGroups ts) (windowGroups_members_ne_nil ts)
    ((windowGroups_flatten ts).symm ▸ hch)

/-- Witness for C2 on a concrete three-timestamp input (gaps of exactly one
hour and of one hour plus one second). -/
theorem claim2_window_partition_witness :
    getSnowWindows utcOnlyDB [0, 3600000, 7201000] none =
      renderWindows utcOnlyDB none (windowGroups [0, 3600000, 7201000]) ∧
    (windowGroups [0, 3600000, 7201000]).flatten = [0, 3600000, 7201000] := by
  have h := claim2_window_partition utcOnlyDB [0, 3600000, 7201000] none (by simp)
  exact ⟨h.1, h.2.1⟩

/-- Claim C3: two adjacent timestamps land in the same window iff their gap
is at most one hour — in epoch milliseconds, `y - x ≤ 3600000` (3600 s); in
particular a gap of exactly 3600 s merges and a gap of 3601 s splits.
`groupIdx` locates a flattened position inside `windowGroups`, which renders
to the emitted windows (first conjunct). -/
theorem claim3_gap_merge_split (ts : List Int) (i : Nat) (x y : Int)
    (hx : ts[i]? = some x) (hy : ts[i + 1]? = some y) :
    (∀ (db : ZoneDB) (tz : Option String),
      getSnowWindows db ts tz = renderWindows db tz (windowGroups ts)) ∧
    (groupIdx (windowGroups ts) (i + 1) = groupIdx (windowGroups ts) i ↔
      y - x ≤ 3600000) := by
  refine ⟨fun db tz => getSnowWindows_eq_renderWindows db ts tz, ?_⟩
  have h := windowGroups_step ts i x y hx hy
  by_cases hg : y - x ≤ 3600000
  · rw [if_pos hg] at h
    exact ⟨fun _ => hg, fun _ => by omega⟩
  · rw [if_neg hg] at h
    exact ⟨fun he => absurd (by omega : False) (fun f => f), fun hle => absurd hle hg⟩

/-- Witness for C3 at the boundary gaps: 3600000 ms (exactly one hour,
merged) and 3601000 ms (one hour and one second, split). -/
theorem claim3_gap_merge_split_witness :
    groupIdx (windowGroups [0, 3600000, 7201000]) 1 =
      groupIdx (windowGroups [0, 3600000, 7201000]) 0 ∧
    groupIdx (windowGroups [0, 3600000, 7201000]) 2 ≠
      groupIdx (windowGroups [0, 3600000, 7201000]) 1 := by
  constructor
  · exact (claim3_gap_merge_split [0, 3600000, 7201000] 0 0 3600000 rfl rfl).2.mpr
      (by norm_num)
  · intro he
    have := (claim3_gap_merge_split [0, 3600000, 7201000] 1 3600000 7201000 rfl rfl).2.mp he
    norm_num at this

/-- Claim C10: the aggregation loop is total on arbitrary (also unordered)
inputs — the model is a structurally recursive function, mirroring the
source's single `for` pass — emits at least one window on non-empty input
under a recognized zone, and merges any subsequent timestamp that is not
later than the current window end (signed gap ≤ 0 ≤ 3600000 ms) instead of
splitting or failing. -/
theorem claim10_unordered_input_safety (ts : List Int) :
    (∀ (i : Nat) (x y : Int), ts[i]? = some x → ts[i + 1]? = some y → y ≤ x →
      groupIdx (windowGroups ts) (i + 1) = groupIdx (windowGroups ts) i) ∧
    (∀ (db : ZoneDB) (tz : Option String) (rule : Int → Int),
      db.lookup (orUTC tz) = some rule → ts ≠ [] →
      ∃ ws, getSnowWindows db ts tz = Except.ok ws ∧ 1 ≤ ws.length) := by
  constructor
  · intro i x y hx hy hle
    have h := windowGroups_step ts i x y hx hy
    rw [if_pos (by omega : y - x ≤ 3600000)] at h
    omega
  · intro db tz rule h hts
    refine ⟨_, getSnowWindows_ok db ts tz rule h, ?_⟩
    rw [List.length_map]
    cases ts with
    | nil => exact absurd rfl hts
    | cons t rest =>
      have hne := windowGroupsAux_ne_nil rest [t] t
      have : 0 < (windowGroupsAux [t] t rest).length := List.length_pos.mpr hne
      simpa [windowGroups] using this

/-- Witness for C10 on an out-of-order input (second timestamp earlier than
the first). -/
theorem claim10_unordered_input_safety_witness :
    groupIdx (windowGroups [3600000, 0]) 1 = groupIdx (windowGroups [3600000, 0]) 0 ∧
    ∃ ws, getSnowWindows utcOnlyDB [3600000, 0] none = Except.ok ws ∧ 1 ≤ ws.length := by
  constructor
  · exact (claim10_unordered_input_safety [3600000, 0]).1 0 3600000 0 rfl rfl (by norm_num)
  · exact (claim10_unordered_input_safety [3600000, 0]).2 utcOnlyDB none (fun _ => 0)
      utcOnlyDB.utc_zero (by simp)

lemma hourOfMs_nonneg (ms : Int) : 0 ≤ hourOfMs ms := by
  have h1 : 0 ≤ ms % 86400000 := Int.emod_nonneg ms (by norm_num)
  exact Int.ediv_nonneg h1 (by norm_num)

lemma hourOfMs_lt (ms : Int) : hourOfMs ms < 24 := by
  have h2 : ms % 86400000 < 86400000 := Int.emod_lt_of_pos ms (by norm_num)
  rw [hourOfMs, Int.ediv_lt_iff_lt_mul (by norm_num)]
  omega

/-- Claim C8: the rendered hour is a function of the local wall-clock hour
`h` (0 ≤ h < 24) in the target zone — the zone argument's rule when
recognized, UTC (zero offset) when no zone is supplied: `h = 0` renders
`"12am"`, `h = 12` renders `"12pm"`, `0 < h < 12` renders `"<h>am"`, and
`12 < h < 24` renders `"<h-12>pm"`. -/
theorem claim8_hour_rendering (db : ZoneDB) (tz : Option String) (rule : Int → Int)
    (h : db.lookup (orUTC tz) = some rule) (ms : Int) :
    (0 ≤ hourOfMs (ms + rule ms) ∧ hourOfMs (ms + rule ms) < 24) ∧
    (hourOfMs (ms + rule ms) = 0 → formatHour db ms tz = Except.ok "12am") ∧
    (hourOfMs (ms + rule ms) = 12 → formatHour db ms tz = Except.ok "12pm") ∧
    (0 < hourOfMs (ms + rule ms) → hourOfMs (ms + rule ms) < 12 →
      formatHour db ms tz = Except.ok (toString (hourOfMs (ms + rule ms)) ++ "am")) ∧
    (12 < hourOfMs (ms + rule ms) →
      formatHour db ms tz = Except.ok (toString (hourOfMs (ms + rule ms) - 12) ++ "pm")) := by
  rw [formatHour_ok db ms tz rule h]
  refine ⟨⟨hourOfMs_nonneg (ms + rule ms), hourOfMs_lt (ms + rule ms)⟩, ?_, ?_, ?_, ?_⟩
  · intro h0
    simp [formatHourPure, h0]
  · intro h12
    simp [formatHourPure, h12]
  · intro hpos hlt
    simp only [formatHourPure]
    rw [if_neg (by omega : ¬ hourOfMs (ms + rule ms) = 0),
      if_neg (by omega : ¬ hourOfMs (ms + rule ms) = 12), if_pos hlt]
  · intro hgt
    simp only [formatHourPure]
    rw [if_neg (by omega : ¬ hourOfMs (ms + rule ms) = 0),
      if_neg (by omega : ¬ hourOfMs (ms + rule ms) = 12),
      if_neg (by omega : ¬ hourOfMs (ms + rule ms) < 12)]

/-- Witness for C8 at local hours 12 (noon) and 0 (midnight) in UTC. -/
theorem claim8_hour_rendering_witness :
    formatHour utcOnlyDB 43200000 none = Except.ok "12pm" ∧
    formatHour utcOnlyDB 0 none = Except.ok "12am" := by
  constructor
  · exact (claim8_hour_rendering utcOnlyDB none (fun _ => 0) utcOnlyDB.utc_zero
      43200000).2.2.1 (by decide)
  · exact (claim8_hour_rendering utcOnlyDB none (fun _ => 0) utcOnlyDB.utc_zero
      0).2.1 (by decide)

/-- Claim C5 (amended): a missing (`undefined`) or empty-string zone argument
falls back to UTC silently — `timezone || "UTC"` — but an unrecognized
non-empty zone identifier is NOT handled: `Intl.DateTimeFormat` throws a
`RangeError` which propagates out of the aggregator on any non-empty
timestamp list, instead of silently rendering in UTC. -/
theorem claim5_timezone_fallback (db : ZoneDB) (ms : Int) (s : String)
    (hs : s ≠ "") (hna : db.lookup s = none) :
    formatHour db ms none = Except.ok (formatHourPure (fun _ => 0) ms) ∧
    formatDate db ms none = Except.ok (formatDatePure (fun _ => 0) ms) ∧
    (∀ ts : List Int, getSnowWindows db ts (some "") = getSnowWindows db ts none) ∧
    (∀ (t : Int) (rest : List Int),
      getSnowWindows db (t :: rest) (some s) =
        Except.error "RangeError: invalid time zone specified") := by
  refine ⟨formatHour_ok db ms none (fun _ => 0) db.utc_zero,
    formatDate_ok db ms none (fun _ => 0) db.utc_zero,
    fun ts => getSnowWindows_tz_congr db (some "") none (by simp [orUTC]) ts, ?_⟩
  intro t rest
  have hna' : db.lookup (orUTC (some s)) = none := by
    simpa [orUTC, hs] using hna
  rw [getSnowWindows]
  exact getSnowWindowsAux_error db (some s) hna' rest t t

/-- Witness for C5 (amended) with a database recognizing only `"UTC"` and the
unrecognized zone name `"Not/AZone"`. -/
theorem claim5_timezone_fallback_witness :
    formatHour utcOnlyDB 0 none = Except.ok (formatHourPure (fun _ => 0) 0) ∧
    getSnowWindows utcOnlyDB [0] (some "Not/AZone") =
      Except.error "RangeError: invalid time zone specified" := by
  have h := claim5_timezone_fallback utcOnlyDB 0 "Not/AZone" (by decide) rfl
  exact ⟨h.1, h.2.2.2 0 []⟩

/-- Counterexample to C5 as stated: with a zone database recognizing only
`"UTC"`, aggregating `[0]` under the unrecognized zone `"Not/AZone"` throws a
`RangeError` instead of rendering as under no zone at all. -/
theorem claim5_counterexample :
    getSnowWindows utcOnlyDB [0] (some "Not/AZone") =
      Except.error "RangeError: invalid time zone specified" ∧
    getSnowWindows utcOnlyDB [0] none = Except.ok ["Thu 1/1 12am"] ∧
    getSnowWindows utcOnlyDB [0] (some "Not/AZone") ≠
      getSnowWindows utcOnlyDB [0] none := by
  refine ⟨rfl, rfl, fun h => ?_⟩
  rw [(rfl : getSnowWindows utcOnlyDB [0] (some "Not/AZone") =
    Except.error "RangeError: invalid time zone specified"),
    (rfl : getSnowWindows utcOnlyDB [0] none = Except.ok ["Thu 1/1 12am"])] at h
  exact Except.noConfusion h

/-- Claim C7 (amended): a window is rendered as `"<Date> <Hour>"` when start
and end are the same instant, as `"<Date> <StartHour>-<EndHour>"` when the
*rendered* date strings `"<Wkd> <M>/<D>"` coincide (which is implied by, but
not equivalent to, equal local calendar dates — the rendered date carries no
year), and as `"<StartDate> <StartHour> - <EndDate> <EndHour>"` only when the
rendered date strings differ.  The spec's concrete UTC example holds for
every zone database: the three instants of
`["2024-01-19T14:00:00Z", "2024-01-19T15:00:00Z", "2024-01-19T20:00:00Z"]`
yield exactly `"Fri 1/19 2pm-3pm"` and `"Fri 1/19 8pm"`. -/
theorem claim7_window_rendering :
    (∀ (db : ZoneDB) (tz : Option String) (rule : Int → Int) (s e : Int),
      db.lookup (orUTC tz) = some rule →
      (formatDatePure rule s = formatDatePure rule e → s = e →
        formatWindow db s e tz =
          Except.ok (formatDatePure rule s ++ " " ++ formatHourPure rule s)) ∧
      (formatDatePure rule s = formatDatePure rule e → s ≠ e →
        formatWindow db s e tz =
          Except.ok (formatDatePure rule s ++ " " ++ formatHourPure rule s ++ "-" ++
            formatHourPure rule e)) ∧
      (formatDatePure rule s ≠ formatDatePure rule e →
        formatWindow db s e tz =
          Except.ok (formatDatePure rule s ++ " " ++ formatHourPure rule s ++ " - " ++
            formatDatePure rule e ++ " " ++ formatHourPure rule e))) ∧
    (∀ db : ZoneDB,
      parseISOUTC "2024-01-19T14:00:00Z" = some 1705672800000 ∧
      parseISOUTC "2024-01-19T15:00:00Z" = some 1705676400000 ∧
      parseISOUTC "2024-01-19T20:00:00Z" = some 1705694400000 ∧
      getSnowWindows db [1705672800000, 1705676400000, 1705694400000] none =
        Except.ok ["Fri 1/19 2pm-3pm", "Fri 1/19 8pm"]) := by
  constructor
  · intro db tz rule s e h
    rw [formatWindow_ok db s e tz rule h]
    refine ⟨fun hd hse => ?_, fun hd hse => ?_, fun hd => ?_⟩
    · simp [formatWindowPure, hd, hse]
    · simp [formatWindowPure, hd, hse]
    · simp [formatWindowPure, hd]
  · intro db
    refine ⟨rfl, rfl, rfl, ?_⟩
    rw [getSnowWindows_ok db [1705672800000, 1705676400000, 1705694400000] none
      (fun _ => 0) db.utc_zero]
    rfl

/-- Witness for C7 (amended) at a single-instant window in UTC. -/
theorem claim7_window_rendering_witness :
    formatWindow utcOnlyDB 1705694400000 1705694400000 none = Except.ok "Fri 1/19 8pm" := by
  have h := (claim7_window_rendering.1 utcOnlyDB none (fun _ => 0)
    1705694400000 1705694400000 utcOnlyDB.utc_zero).1 rfl rfl
  rw [h]
  rfl

/-- Counterexample to C7 as stated: the window built from
`["2029-01-19T14:00:00Z", "2024-01-19T14:00:00Z"]` (merged because the signed
gap is negative) has endpoints on *different* local calendar dates, five
years apart, yet both render as `"Fri 1/19"`, so the window is rendered in
the same-day short form `"Fri 1/19 2pm-2pm"`, not the claimed long form with
both dates. -/
theorem claim7_counterexample :
    parseISOUTC "2029-01-19T14:00:00Z" = some 1863525600000 ∧
    parseISOUTC "2024-01-19T14:00:00Z" = some 1705672800000 ∧
    civilFromDays (1863525600000 / 86400000) ≠ civilFromDays (1705672800000 / 86400000) ∧
    getSnowWindows utcOnlyDB [1863525600000, 1705672800000] none =
      Except.ok ["Fri 1/19 2pm-2pm"] ∧
    ("Fri 1/19 2pm-2pm" : String) ≠ "Fri 1/19 2pm - Fri 1/19 2pm" := by
  exact ⟨rfl, rfl, by decide, rfl, by decide⟩

/-- Witness for C6 at a concrete two-chunk nested axis. -/
theorem claim6_nested_axis_flatten_witness :
    parseSnowForecasts ⟨⟨⟨⟨.nested [["t0"], ["t1"]]⟩⟩⟩, ⟨⟨[1, 1]⟩⟩⟩ [⟨"a", "A", 0, 0, none⟩] =
      parseSnowForecasts ⟨⟨⟨⟨.flat [["t0"], ["t1"]].flatten⟩⟩⟩, ⟨⟨[1, 1]⟩⟩⟩
        [⟨"a", "A", 0, 0, none⟩] :=
  claim6_nested_axis_flatten [["t0"], ["t1"]] ⟨⟨[1, 1]⟩⟩ [⟨"a", "A", 0, 0, none⟩]

/-- Witness for C9 at an unrecognized zone argument. -/
theorem claim9_empty_input_witness :
    getSnowWindows utcOnlyDB [] (some "Not/AZone") = Except.ok [] :=
  claim9_empty_input utcOnlyDB (some "Not/AZone")
